import Mathlib

/-!
Verification of the hexmapindia repository.

The repository contains two Streamlit variants of the same application:
src/app.py (configurable grid, upload of a mapping CSV and a values CSV)
and src/streamlit_app.py (fixed 10x10 grid, local mapping file, upload of
a single values CSV).  This file gives a shallow embedding of the three
algorithmic cores of both variants: the hexagonal grid generator
(make_hex_grid), the key resolver that merges mapping and value tables
onto the cell set (the module-level merge chain of app.py, lines 121-198,
and the upload-processing block of streamlit_app.py, lines 276-321), and
the color encoder and scene composer (plot_hex_dataframe in app.py and
plot_matched_hexes in streamlit_app.py).

Modelling conventions:
  - Machine floats are embedded as exact values in the ring Q[sqrt 3]
    (every coordinate produced by the generator is of the form
    a + b * sqrt 3 with rational a, b, because cos and sin of the angles
    30 * k all live in that ring).  This loses rounding behaviour but
    preserves all structure the claims are about.
  - pandas DataFrames become typed lists of records; a pandas merge
    becomes an explicit nested-loop join that preserves left order and
    fans out on duplicate keys, which is the documented pandas behaviour.
    A missing cell (NaN / NA) becomes none.
  - Python exceptions become Except values.
  - A matplotlib colormap value is kept symbolic: the constructor
    Color.cmapAt names the colormap and the normalized position instead
    of computing an RGBA quadruple, and Color.cmapBad is the color a
    colormap assigns to masked (NaN) input.
-/

namespace HexMapIndia

/-- Element a + b * sqrt 3 of the ring Q[sqrt 3].  All coordinates that the
Python code computes with floating point are exactly of this form. -/
structure Q3 where
  a : ℚ
  b : ℚ
deriving DecidableEq

instance : Add Q3 := ⟨fun x y => ⟨x.a + y.a, x.b + y.b⟩⟩

/-- Scalar multiplication of a Q[sqrt 3] element by a rational. -/
def Q3.smul (q : ℚ) (x : Q3) : Q3 := ⟨q * x.a, q * x.b⟩

/-- Scalar multiplication of a Q[sqrt 3] element by a natural number
(the row and column counters of the Python loops). -/
def Q3.nsmul (n : Nat) (x : Q3) : Q3 := Q3.smul (n : ℚ) x

/-- Grid orientation, the "orientation" parameter of make_hex_grid. -/
inductive Orientation where
  | flat
  | pointy
deriving DecidableEq

/-- Exact value of cos (d degrees) in Q[sqrt 3], for the multiples of 30
degrees that hex_vertices uses (math.cos in the source). -/
def cosDeg (d : Nat) : Q3 :=
  match d % 360 with
  | 0   => ⟨1, 0⟩
  | 30  => ⟨0, 1/2⟩
  | 60  => ⟨1/2, 0⟩
  | 90  => ⟨0, 0⟩
  | 120 => ⟨-(1/2), 0⟩
  | 150 => ⟨0, -(1/2)⟩
  | 180 => ⟨-1, 0⟩
  | 210 => ⟨0, -(1/2)⟩
  | 240 => ⟨-(1/2), 0⟩
  | 270 => ⟨0, 0⟩
  | 300 => ⟨1/2, 0⟩
  | 330 => ⟨0, 1/2⟩
  | _   => ⟨0, 0⟩

/-- Exact value of sin (d degrees) in Q[sqrt 3], for the multiples of 30
degrees that hex_vertices uses (math.sin in the source). -/
def sinDeg (d : Nat) : Q3 :=
  match d % 360 with
  | 0   => ⟨0, 0⟩
  | 30  => ⟨1/2, 0⟩
  | 60  => ⟨0, 1/2⟩
  | 90  => ⟨1, 0⟩
  | 120 => ⟨0, 1/2⟩
  | 150 => ⟨1/2, 0⟩
  | 180 => ⟨0, 0⟩
  | 210 => ⟨-(1/2), 0⟩
  | 240 => ⟨0, -(1/2)⟩
  | 270 => ⟨-1, 0⟩
  | 300 => ⟨0, -(1/2)⟩
  | 330 => ⟨-(1/2), 0⟩
  | _   => ⟨0, 0⟩

/-- Start angle of the first hexagon vertex: 30 degrees for pointy
orientation, 0 for flat (hex_vertices, app.py line 18 and
streamlit_app.py line 47). -/
def startDeg : Orientation → Nat
  | .pointy => 30
  | .flat => 0

/-- Embedding of hex_vertices (app.py lines 16-23, streamlit_app.py lines
46-52): six vertices at distance r from the center, at angles
start + 60 * i. -/
def hex_vertices (x y : Q3) (r : ℚ) (orientation : Orientation) : List (Q3 × Q3) :=
  (List.range 6).map (fun i =>
    (x + Q3.smul r (cosDeg (startDeg orientation + 60 * i)),
     y + Q3.smul r (sinDeg (startDeg orientation + 60 * i))))

/-- One row of the hex_grid DataFrame built by make_hex_grid. -/
structure Cell where
  hex_id : Nat
  row : Nat
  col : Nat
  cx : Q3
  cy : Q3
  verts : List (Q3 × Q3)
deriving DecidableEq

/-- Embedding of make_hex_grid (app.py lines 25-54, streamlit_app.py lines
54-83; the two definitions are line-for-line identical up to int and
float casts).  For pointy orientation the horizontal spacing is
sqrt 3 * r and the vertical spacing 3/4 * 2r, with odd rows shifted right
by half a horizontal spacing; for flat orientation the spacings are
swapped and odd columns are shifted down.  Cells are produced by the
nested loop for row in range rows, for col in range cols, with
hex_id = row * cols + col. -/
def make_hex_grid (rows cols : Nat) (r : ℚ) (orientation : Orientation) : List Cell :=
  let h_spacing : Q3 := match orientation with
    | .pointy => ⟨0, r⟩
    | .flat   => ⟨3/2 * r, 0⟩
  let v_spacing : Q3 := match orientation with
    | .pointy => ⟨3/2 * r, 0⟩
    | .flat   => ⟨0, r⟩
  (List.range rows).flatMap (fun row =>
    (List.range cols).map (fun col =>
      let cx : Q3 := match orientation with
        | .pointy => Q3.nsmul col h_spacing + Q3.nsmul (row % 2) (Q3.smul (1/2) h_spacing)
        | .flat   => Q3.nsmul col h_spacing
      let cy : Q3 := match orientation with
        | .pointy => Q3.nsmul row v_spacing
        | .flat   => Q3.nsmul row v_spacing + Q3.nsmul (col % 2) (Q3.smul (1/2) v_spacing)
      { hex_id := row * cols + col, row := row, col := col, cx := cx, cy := cy,
        verts := hex_vertices cx cy r orientation }))

/-- Test of the regular-expression character class A-Za-z used by the code
cleaning step str.replace with pattern not-A-Za-z (app.py line 151,
streamlit_app.py line 106), expressed on the Unicode code point. -/
def isAsciiLetterB (c : Char) : Bool :=
  (65 ≤ c.toNat && c.toNat ≤ 90) || (97 ≤ c.toNat && c.toNat ≤ 122)

/-- ASCII uppercase conversion, the effect of str.upper on the output of
the A-Za-z filter (only ASCII letters reach it). -/
def upperAscii (c : Char) : Char :=
  if 97 ≤ c.toNat && c.toNat ≤ 122 then Char.ofNat (c.toNat - 32) else c

/-- Last two characters of a list, the Python slice str with index -2
onward; a string shorter than two characters is returned whole. -/
def lastTwo (l : List Char) : List Char := l.drop (l.length - 2)

/-- Embedding of the code-cleaning pipeline applied to every mapping code
(app.py line 151, streamlit_app.py line 106): remove every character
outside A-Za-z, uppercase, keep the last two characters. -/
def normalize_code (s : String) : String :=
  String.mk (lastTwo ((s.data.filter isAsciiLetterB).map upperAscii))

/-- One CSV cell as pandas delivers it after read_csv: a number, a piece
of non-numeric text, or a missing value (NaN).  Numeric-looking text is
already parsed to a number by read_csv, so the text constructor stands
for entries that fail numeric coercion. -/
inductive CsvVal where
  | num (q : ℚ)
  | text (s : String)
  | na
deriving DecidableEq

/-- Embedding of pd.to_numeric with errors equal to coerce
(streamlit_app.py lines 104, 129, 311): numbers pass through, text and
missing values become null, nothing ever raises. -/
def toNumeric : CsvVal → Option ℚ
  | .num q => some q
  | .text _ => none
  | .na => none

/-- Minimum of a rational list, none when empty; the skipna minimum of a
pandas Series once the null entries have been dropped. -/
def listMin : List ℚ → Option ℚ
  | [] => none
  | q :: qs =>
    match listMin qs with
    | none => some q
    | some m => some (min q m)

/-- Maximum of a rational list, none when empty. -/
def listMax : List ℚ → Option ℚ
  | [] => none
  | q :: qs =>
    match listMax qs with
    | none => some q
    | some m => some (max q m)

instance {ε α : Type} [DecidableEq ε] [DecidableEq α] : DecidableEq (Except ε α) := fun x y =>
  match x, y with
  | .error a, .error b =>
    if h : a = b then .isTrue (by rw [h]) else .isFalse (fun hh => h (by cases hh; rfl))
  | .ok a, .ok b =>
    if h : a = b then .isTrue (by rw [h]) else .isFalse (fun hh => h (by cases hh; rfl))
  | .error _, .ok _ => .isFalse (fun hh => Except.noConfusion hh)
  | .ok _, .error _ => .isFalse (fun hh => Except.noConfusion hh)

/-- One row of a parsed mapping CSV, after the column heuristics have
identified a hex_id column and a code column (app.py lines 127-149,
streamlit_app.py lines 92-107).  The id is an integer as read_csv
delivers it. -/
structure MappingRow where
  hex_id : Nat
  code : String
deriving DecidableEq

/-- Normalization of the code column of a mapping table (app.py line 151,
streamlit_app.py line 106): every code is cleaned with normalize_code.
Neither variant applies this cleaning to the codes of the uploaded value
table. -/
def cleanMapping (m : List MappingRow) : List MappingRow :=
  m.map (fun r => ⟨r.hex_id, normalize_code r.code⟩)

/-- One row of the merged frame of app.py after the mapping merge
(app.py lines 159-163): a cell plus an optional code. -/
structure CellCode where
  cell : Cell
  code : Option String
deriving DecidableEq

/-- One row of the final merged frame of app.py (lines 186-193): a cell,
an optional code, and the value carried over from the values CSV; none
when the left merge found no value row for this cell. -/
structure AppRow where
  cell : Cell
  code : Option String
  value : Option CsvVal
deriving DecidableEq

/-- The uploaded values CSV after the case-insensitive column-name
heuristics of app.py lines 174-189 and the rename loop of
streamlit_app.py lines 284-295: an optional code column (entries may be
missing), an optional hex_id column, and the value column.  Claims only
exercise tables that do have a value column, so the model fixes one. -/
structure ValuesDf where
  code : Option (List (Option String))
  hex_id : Option (List CsvVal)
  value : List CsvVal
deriving DecidableEq

/-- Embedding of the mapping merge of app.py lines 159-163:
hex_grid.merge with the cleaned mapping on hex_id, how left.  Left row
order is preserved, duplicate mapping ids fan out, a cell without a
mapping row keeps a null code.  With no mapping file the code column is
filled with NA (lines 161-163). -/
def appMergeMapping (grid : List Cell) (mapping : Option (List MappingRow)) : List CellCode :=
  match mapping with
  | some m => grid.flatMap (fun c =>
      let ms := m.filter (fun r => decide (r.hex_id = c.hex_id))
      if ms.isEmpty then [⟨c, none⟩] else ms.map (fun r => ⟨c, some r.code⟩))
  | none => grid.map (fun c => ⟨c, none⟩)

/-- Key equality for the merge of app.py line 189, which joins the
integer hex_id of the grid against a raw CSV column: only a numeric
entry equal to the id matches.  A non-numeric entry makes the real
pandas column object-typed and the merge raise inside the try of line
171, dropping the whole values file; no theorem below exercises that
corner, and the model treats such an entry as unmatched. -/
def csvEqNat (v : CsvVal) (n : Nat) : Bool :=
  match v with
  | .num q => decide (q = (n : ℚ))
  | _ => false

/-- Embedding of the values merge of app.py lines 183-195.  If the values
table has a code column, merge on code, how left (line 186); note that
the uploaded codes are used raw, only the mapping side was normalized.
Otherwise, if it has a hex_id column, merge on hex_id, how left (line
189).  Otherwise app.py falls back to renaming the first two columns to
code and value (line 193); that headerless positional fallback is
outside the modelled fragment, so the function returns none there.
Pandas matches null merge keys with each other, hence plain equality of
optional codes. -/
def appMergeValues (merged0 : List CellCode) (v : ValuesDf) : Option (List AppRow) :=
  match v.code with
  | some codes =>
    let vtab := codes.zip v.value
    some (merged0.flatMap (fun cc =>
      let ms := vtab.filter (fun p => decide (p.1 = cc.code))
      if ms.isEmpty then [⟨cc.cell, cc.code, none⟩]
      else ms.map (fun p => ⟨cc.cell, cc.code, some p.2⟩)))
  | none =>
    match v.hex_id with
    | some hexcol =>
      let vtab := hexcol.zip v.value
      some (merged0.flatMap (fun cc =>
        let ms := vtab.filter (fun p => csvEqNat p.1 cc.cell.hex_id)
        if ms.isEmpty then [⟨cc.cell, cc.code, none⟩]
        else ms.map (fun p => ⟨cc.cell, cc.code, some p.2⟩)))
    | none => none

/-- The full key resolver of app.py (lines 121-198): build the grid, clean
and merge the mapping, then merge the values. -/
def appResolve (grid : List Cell) (mapping : Option (List MappingRow)) (v : ValuesDf) :
    Option (List AppRow) :=
  appMergeValues (appMergeMapping grid (mapping.map cleanMapping)) v

/-- The uploaded CSV of streamlit_app.py after the rename loop of lines
284-295, in the same columnar shape as ValuesDf. -/
structure UserDf where
  code : Option (List (Option String))
  hex_id : Option (List CsvVal)
  value : List CsvVal
deriving DecidableEq

/-- One row of the merged frame of streamlit_app.py (lines 298-312): the
hex id the row was matched to, an optional code, the carried value, and
the grid cell (none when the left merge of line 300 found no cell for a
mapping id). -/
structure SRow where
  hex_id : ℤ
  code : Option String
  value : Option CsvVal
  cell : Option Cell
deriving DecidableEq

/-- Errors the streamlit_app.py merge block can raise. -/
inductive SErr where
  | keyError
  | castError
  | noKey
deriving DecidableEq

/-- Embedding of astype Int64 after pd.to_numeric with coerce
(streamlit_app.py line 311): null stays null, an integral number becomes
its integer, a fractional number makes the whole cast raise. -/
def astypeInt64 (l : List (Option ℚ)) : Except SErr (List (Option ℤ)) :=
  if l.all (fun o => match o with | none => true | some q => decide (q.den = 1)) then
    .ok (l.map (fun o => o.bind (fun q => if q.den = 1 then some q.num else none)))
  else .error .castError

/-- Embedding of the upload-processing block of streamlit_app.py, lines
298-321.  If the upload has a code column and the local mapping loaded:
inner-join the cleaned mapping with the raw upload on code (line 299),
then left-join the grid on hex_id (line 300).  When the upload also has
its own hex_id column, the first merge suffixes the two hex_id columns
to hex_id_x and hex_id_y, so the second merge, asked to join on hex_id,
raises a KeyError.  Otherwise, if the upload has a hex_id column:
coerce it to Int64 (line 311) and inner-join the grid with the upload on
hex_id (line 312).  Otherwise the page warns and stops (lines 320-321),
modelled as the noKey error. -/
def streamlitResolve (grid : List Cell) (mapping : Option (List MappingRow)) (u : UserDf) :
    Except SErr (List SRow) :=
  match mapping, u.code with
  | some m0, some codes =>
    if u.hex_id.isSome then
      .error .keyError
    else
      let m := cleanMapping m0
      let utab := codes.zip u.value
      let matchedPairs := m.flatMap (fun mr =>
        (utab.filter (fun p => decide (p.1 = some mr.code))).map (fun p => (mr, p.2)))
      .ok (matchedPairs.flatMap (fun p =>
        let cs := grid.filter (fun c => decide (c.hex_id = p.1.hex_id))
        if cs.isEmpty then [⟨(p.1.hex_id : ℤ), some p.1.code, some p.2, none⟩]
        else cs.map (fun c => ⟨(p.1.hex_id : ℤ), some p.1.code, some p.2, some c⟩)))
  | _, _ =>
    match u.hex_id with
    | some hexcol =>
      match astypeInt64 (hexcol.map toNumeric) with
      | .error e => .error e
      | .ok coerced =>
        let codes := match u.code with
          | some cs => cs
          | none => u.value.map (fun _ => none)
        let utab := coerced.zip (codes.zip u.value)
        .ok (grid.flatMap (fun c =>
          (utab.filter (fun p => decide (p.1 = some (c.hex_id : ℤ)))).map (fun p =>
            ⟨(c.hex_id : ℤ), p.2.1, some p.2.2, some c⟩)))
    | none => .error .noKey

/-- A facecolor.  Colormap outputs are kept symbolic: cmapAt names the
colormap and the normalized position handed to it, cmapBad is the color
a matplotlib colormap returns for masked (NaN) input, rgba is a literal
quadruple. -/
inductive Color where
  | rgba (r g b a : ℚ)
  | cmapAt (name : String) (t : ℚ)
  | cmapBad (name : String)
deriving DecidableEq

/-- Opaque white, the missing-value fill of plot_matched_hexes
(streamlit_app.py line 143) and of the unreachable except branch of
app.py line 74. -/
def whiteFill : Color := .rgba 1 1 1 1

/-- Light grey fill used by app.py when no value column is plotted
(line 76). -/
def greyFill90 : Color := .rgba (9/10) (9/10) (9/10) 1

/-- Light grey fill used by plot_matched_hexes when no value column or no
colormap object is available (streamlit_app.py line 147). -/
def greyFill92 : Color := .rgba (92/100) (92/100) (92/100) 1

/-- Representative fragment of the matplotlib colormap registry
(plt.colormaps), the enumeration that cm.get_cmap (app.py line 63) and
matplotlib.colormaps.get (streamlit_app.py line 131) look names up in.
It contains every name the theorems below use; the full registry is
larger but fixed, and the contrived name used by the palette claims is
in neither. -/
def knownCmaps : List String :=
  ["viridis", "plasma", "inferno", "magma", "cividis",
   "Greys", "Blues", "Greens", "Oranges", "coolwarm", "Spectral"]

/-- Embedding of matplotlib.colors.Normalize applied to an unmasked
value: when vmin equals vmax every entry is set to 0 (the fill of the
degenerate branch of Normalize), otherwise linear rescaling.  Normalize
also raises when vmin exceeds vmax, but both plot functions compute vmin
and vmax as minimum and maximum of the same column, so that branch is
unreachable and not modelled. -/
def normApply (vmin vmax v : ℚ) : ℚ :=
  if vmin = vmax then 0 else (v - vmin) / (vmax - vmin)

/-- Errors the plotting helpers can raise: the ValueError of a failed
float coercion, and the lookup error of cm.get_cmap for a name outside
the registry. -/
inductive PlotErr where
  | valueError
  | unknownCmap
deriving DecidableEq

/-- Entry test used by the model of astype float: true on non-numeric
text, which makes the Series cast raise. -/
def isTextEntry (o : Option CsvVal) : Bool :=
  match o with
  | some (.text _) => true
  | _ => false

/-- Embedding of Series.astype float (app.py line 61): raises ValueError
as soon as any entry is non-numeric text, otherwise maps numbers through
and keeps missing entries as NaN. -/
def astypeFloat (l : List (Option CsvVal)) : Except PlotErr (List (Option ℚ)) :=
  if l.any isTextEntry then .error .valueError
  else .ok (l.map (fun o => o.bind toNumeric))

/-- Embedding of cm.get_cmap (app.py line 63): the name must be in the
registry, otherwise matplotlib raises. -/
def get_cmap (name : String) : Except PlotErr String :=
  if knownCmaps.contains name then .ok name else .error .unknownCmap

/-- The colorbar attached to a figure: the colormap it is drawn with and
the value range of its Normalize. -/
structure Colorbar where
  cmap : String
  vmin : Option ℚ
  vmax : Option ℚ
deriving DecidableEq

/-- The figure produced by plot_hex_dataframe: cell outlines, per-row
fill colors, per-row text labels, and an optional colorbar. -/
structure AppFig where
  patches : List (List (Q3 × Q3))
  facecolors : List Color
  labels : List String
  colorbar : Option Colorbar
deriving DecidableEq

/-- Fill color of one row of plot_hex_dataframe under a value column
(app.py lines 68-74): a missing value flows through float, Normalize and
the colormap as NaN and receives the colormap bad color, a number is
normalized and mapped through the colormap.  The except branch painting
white is unreachable because astype float has already raised on any
non-numeric text. -/
def appRowColor (name : String) (vmin vmax : ℚ) (v : Option ℚ) : Color :=
  match v with
  | none => .cmapBad name
  | some q => .cmapAt name (normApply vmin vmax q)

/-- Embedding of plot_hex_dataframe (app.py lines 56-100).  With a value
column: cast it to float (may raise), look the colormap up (may raise),
normalize against the column minimum and maximum, label each cell with
its code or its id, and attach a colorbar unless every value is null.
Without a value column: uniform light grey and no colorbar. -/
def plot_hex_dataframe (plot_df : List AppRow) (useValue : Bool) (cmap_name : String) :
    Except PlotErr AppFig :=
  if useValue then
    match astypeFloat (plot_df.map (fun r => r.value)) with
    | .error e => .error e
    | .ok vals =>
      match get_cmap cmap_name with
      | .error e => .error e
      | .ok cmap =>
        let nn := vals.reduceOption
        let vmin := (listMin nn).getD 0
        let vmax := (listMax nn).getD 0
        .ok {
          patches := plot_df.map (fun r => r.cell.verts)
          facecolors := vals.map (appRowColor cmap vmin vmax)
          labels := plot_df.map (fun r => r.code.getD (toString r.cell.hex_id))
          colorbar := if nn.isEmpty then none else some ⟨cmap, listMin nn, listMax nn⟩ }
  else
    .ok {
      patches := plot_df.map (fun r => r.cell.verts)
      facecolors := plot_df.map (fun _ => greyFill90)
      labels := plot_df.map (fun r => r.code.getD (toString r.cell.hex_id))
      colorbar := none }

/-- The figure produced by plot_matched_hexes: an optional placeholder
text (the no-data figure), cell outlines (none where the merged row has
no geometry), fill colors, labels, and an optional colorbar. -/
structure SFig where
  placeholderText : Option String
  patches : List (Option (List (Q3 × Q3)))
  facecolors : List Color
  labels : List String
  colorbar : Option Colorbar
deriving DecidableEq

/-- The placeholder figure of streamlit_app.py lines 120-123: a figure
holding only the text, with no patches, labels or colorbar. -/
def placeholderFig : SFig :=
  { placeholderText := some "No matched hexes to plot"
    patches := []
    facecolors := []
    labels := []
    colorbar := none }

/-- Fill color of one row of plot_matched_hexes (streamlit_app.py lines
140-147).  When a value column and a colormap object are present: a null
value paints white, non-numeric text hits the bare float call of line
145 and raises ValueError, a number is normalized and mapped through the
colormap.  Otherwise the uniform grey fill. -/
def sRowColor (useValue cmapFound : Bool) (name : String) (vmin vmax : ℚ) (r : SRow) :
    Except PlotErr Color :=
  if useValue && cmapFound then
    match r.value with
    | none => .ok whiteFill
    | some .na => .ok whiteFill
    | some (.text _) => .error .valueError
    | some (.num q) => .ok (.cmapAt name (normApply vmin vmax q))
  else .ok greyFill92

/-- Embedding of plot_matched_hexes (streamlit_app.py lines 114-173).
A missing or empty merged frame returns the placeholder figure (lines
119-123).  Otherwise the value column is coerced with to_numeric for the
range, the colormap is fetched with matplotlib.colormaps.get, which
returns None instead of raising for an unknown name, each row is colored
by sRowColor, labels fall back from code to hex_id, and a colorbar is
attached when some value is non-null; a ScalarMappable built with a None
colormap falls back to the rcParams default viridis. -/
def plot_matched_hexes (merged_df : Option (List SRow)) (useValue : Bool) (cmap_name : String) :
    Except PlotErr SFig :=
  match merged_df with
  | none => .ok placeholderFig
  | some rows =>
    if rows.isEmpty then .ok placeholderFig
    else
      let cmapFound := knownCmaps.contains cmap_name
      let vals := rows.map (fun r => r.value.bind toNumeric)
      let nn := vals.reduceOption
      let vmin := (listMin nn).getD 0
      let vmax := (listMax nn).getD 0
      match rows.mapM (sRowColor useValue cmapFound cmap_name vmin vmax) with
      | .error e => .error e
      | .ok colors =>
        .ok {
          placeholderText := none
          patches := rows.map (fun r => r.cell.map (fun c => c.verts))
          facecolors := colors
          labels := rows.map (fun r => r.code.getD (toString r.hex_id))
          colorbar :=
            if useValue && !nn.isEmpty then
              some ⟨if cmapFound then cmap_name else "viridis", listMin nn, listMax nn⟩
            else none }

/-- Scalar projection of an app.py merged row used by the theorems: cell
id, code, value. -/
def AppRow.proj (r : AppRow) : Nat × Option String × Option CsvVal :=
  (r.cell.hex_id, r.code, r.value)

/-- Scalar projection of a streamlit_app.py merged row used by the
theorems: hex id, code, value. -/
def SRow.proj (r : SRow) : ℤ × Option String × Option CsvVal :=
  (r.hex_id, r.code, r.value)

/-- The 2 by 2 flat grid of radius 1 used by the end-to-end scenarios. -/
def grid2 : List Cell := make_hex_grid 2 2 1 .flat

/-- Scenario A mapping table: cells 0 to 3 carry codes AA, BB, CC, DD. -/
def mappingA : List MappingRow := [⟨0, "AA"⟩, ⟨1, "BB"⟩, ⟨2, "CC"⟩, ⟨3, "DD"⟩]

/-- Scenario A value table for app.py: codes AA and BB with values 10 and
20. -/
def valuesA : ValuesDf := ⟨some [some "AA", some "BB"], none, [.num 10, .num 20]⟩

/-- Scenario A value table for streamlit_app.py, same content. -/
def userA : UserDf := ⟨some [some "AA", some "BB"], none, [.num 10, .num 20]⟩

/-- Scenario B value table for app.py: one row, cell id 0 with value 5,
no code column. -/
def valuesB : ValuesDf := ⟨none, some [.num 0], [.num 5]⟩

/-- Scenario B value table for streamlit_app.py, same content. -/
def userB : UserDf := ⟨none, some [.num 0], [.num 5]⟩

/-- Upload for streamlit_app.py that carries both a code column and a
hex_id column with a different association. -/
def userBoth : UserDf := ⟨some [some "AA"], some [.num 3], [.num 10]⟩

/-- A placeholder cell handed to the plotting helpers where geometry does
not matter. -/
def cellW : Cell := ⟨0, 0, 0, ⟨0, 0⟩, ⟨0, 0⟩, []⟩

/-- Streamlit merged rows with two distinct numeric values, used by the
palette scenario. -/
def srowsD : List SRow :=
  [⟨0, some "AA", some (.num 1), none⟩, ⟨1, some "BB", some (.num 2), none⟩]

lemma char_toNat_ofNat_le {n : Nat} (h : n ≤ 122) : (Char.ofNat n).toNat = n := by
  have hv : n.isValidChar := Or.inl (by omega)
  simp [Char.ofNat, hv, Char.ofNatAux, Char.toNat, UInt32.toNat, BitVec.toNat_ofNatLt]

lemma upperAscii_toNat_of_lower {c : Char} (h1 : 97 ≤ c.toNat) (h2 : c.toNat ≤ 122) :
    (upperAscii c).toNat = c.toNat - 32 := by
  unfold upperAscii
  rw [if_pos]
  · exact char_toNat_ofNat_le (by omega)
  · simp only [Bool.and_eq_true, decide_eq_true_eq]
    exact ⟨h1, h2⟩

lemma upperAscii_of_not_lower {c : Char} (h : ¬(97 ≤ c.toNat ∧ c.toNat ≤ 122)) :
    upperAscii c = c := by
  unfold upperAscii
  rw [if_neg]
  simp only [Bool.and_eq_true, decide_eq_true_eq]
  exact h

lemma isAsciiLetterB_iff {c : Char} :
    isAsciiLetterB c = true ↔ (65 ≤ c.toNat ∧ c.toNat ≤ 90) ∨ (97 ≤ c.toNat ∧ c.toNat ≤ 122) := by
  unfold isAsciiLetterB
  simp [Bool.and_eq_true, Bool.or_eq_true, decide_eq_true_eq]

lemma upperAscii_isAlpha {c : Char} (h : isAsciiLetterB c = true) :
    isAsciiLetterB (upperAscii c) = true := by
  rw [isAsciiLetterB_iff] at h ⊢
  by_cases hl : 97 ≤ c.toNat ∧ c.toNat ≤ 122
  · left
    rw [upperAscii_toNat_of_lower hl.1 hl.2]
    omega
  · rw [upperAscii_of_not_lower hl]
    exact h

lemma upperAscii_idem (c : Char) :
    upperAscii (upperAscii c) = upperAscii c := by
  by_cases hl : 97 ≤ c.toNat ∧ c.toNat ≤ 122
  · apply upperAscii_of_not_lower
    rw [upperAscii_toNat_of_lower hl.1 hl.2]
    omega
  · rw [upperAscii_of_not_lower hl]
    exact upperAscii_of_not_lower hl

lemma map_eq_self_of_fixed {α : Type} {f : α → α} {l : List α} (h : ∀ x ∈ l, f x = x) :
    l.map f = l := by
  induction l with
  | nil => rfl
  | cons a as ih =>
    simp only [List.map_cons, h a (List.mem_cons_self a as),
      ih (fun x hx => h x (List.mem_cons_of_mem a hx))]

lemma mem_normalize_code {s : String} {c : Char} (h : c ∈ (normalize_code s).data) :
    isAsciiLetterB c = true ∧ upperAscii c = c := by
  unfold normalize_code lastTwo at h
  have h1 : c ∈ (s.data.filter isAsciiLetterB).map upperAscii := List.mem_of_mem_drop h
  rw [List.mem_map] at h1
  obtain ⟨d, hd, rfl⟩ := h1
  have hda : isAsciiLetterB d = true := (List.mem_filter.mp hd).2
  exact ⟨upperAscii_isAlpha hda, upperAscii_idem d⟩

lemma normalize_code_length (s : String) : (normalize_code s).data.length ≤ 2 := by
  unfold normalize_code lastTwo
  rw [List.length_drop]
  omega

lemma normalize_code_idem (s : String) : normalize_code (normalize_code s) = normalize_code s := by
  have hfix : ∀ c ∈ (normalize_code s).data, isAsciiLetterB c = true ∧ upperAscii c = c :=
    fun c hc => mem_normalize_code hc
  have hfilter : (normalize_code s).data.filter isAsciiLetterB = (normalize_code s).data :=
    List.filter_eq_self.mpr (fun c hc => (hfix c hc).1)
  have hmap : ((normalize_code s).data.filter isAsciiLetterB).map upperAscii =
      (normalize_code s).data := by
    rw [hfilter]
    exact map_eq_self_of_fixed (fun c hc => (hfix c hc).2)
  have hlen := normalize_code_length s
  have hdef : normalize_code (normalize_code s) =
      String.mk (lastTwo (((normalize_code s).data.filter isAsciiLetterB).map upperAscii)) := rfl
  rw [hdef, hmap]
  unfold lastTwo
  have hz : (normalize_code s).data.length - 2 = 0 := by omega
  rw [hz, List.drop_zero]

lemma range_flatMap_mul (rows cols : Nat) :
    (List.range rows).flatMap (fun row => (List.range cols).map (fun col => row * cols + col)) =
      List.range (rows * cols) := by
  induction rows with
  | zero => simp
  | succ n ih =>
    rw [List.range_succ, List.flatMap_append, ih]
    simp only [List.flatMap_cons, List.flatMap_nil, List.append_nil]
    rw [Nat.succ_mul, List.range_add]

lemma make_hex_grid_ids (rows cols : Nat) (r : ℚ) (o : Orientation) :
    (make_hex_grid rows cols r o).map Cell.hex_id = List.range (rows * cols) := by
  unfold make_hex_grid
  rw [List.map_flatMap]
  simp only [List.map_map]
  exact range_flatMap_mul rows cols

lemma listMin_const {c : ℚ} :
    ∀ l : List ℚ, l ≠ [] → (∀ q ∈ l, q = c) → listMin l = some c := by
  intro l
  induction l with
  | nil => intro hne _; exact absurd rfl hne
  | cons q qs ih =>
    intro _ h
    have hq : q = c := h q (List.mem_cons_self q qs)
    by_cases hqs : qs = []
    · subst hqs
      simp [listMin, hq]
    · have hm := ih hqs (fun x hx => h x (List.mem_cons_of_mem q hx))
      simp [listMin, hm, hq, min_self]

lemma listMax_const {c : ℚ} :
    ∀ l : List ℚ, l ≠ [] → (∀ q ∈ l, q = c) → listMax l = some c := by
  intro l
  induction l with
  | nil => intro hne _; exact absurd rfl hne
  | cons q qs ih =>
    intro _ h
    have hq : q = c := h q (List.mem_cons_self q qs)
    by_cases hqs : qs = []
    · subst hqs
      simp [listMax, hq]
    · have hm := ih hqs (fun x hx => h x (List.mem_cons_of_mem q hx))
      simp [listMax, hm, hq, max_self]

lemma astypeFloat_ok {l : List (Option CsvVal)} (h : ∀ o ∈ l, isTextEntry o = false) :
    astypeFloat l = .ok (l.map (fun o => o.bind toNumeric)) := by
  unfold astypeFloat
  rw [if_neg]
  intro hany
  rw [List.any_eq_true] at hany
  obtain ⟨o, ho, hto⟩ := hany
  rw [h o ho] at hto
  exact Bool.false_ne_true hto

lemma astypeFloat_error {l : List (Option CsvVal)} (h : ∃ o ∈ l, isTextEntry o = true) :
    astypeFloat l = .error .valueError := by
  unfold astypeFloat
  rw [if_pos (List.any_eq_true.mpr h)]

lemma mapM_ok {α β : Type} (g : α → Except PlotErr β) (f : α → β) :
    ∀ l : List α, (∀ x ∈ l, g x = .ok (f x)) → l.mapM g = .ok (l.map f) := by
  intro l
  induction l with
  | nil => intro _; rfl
  | cons a as ih =>
    intro h
    rw [List.mapM_cons, h a (List.mem_cons_self a as),
      ih (fun x hx => h x (List.mem_cons_of_mem a hx))]
    rfl

lemma mapM_error_head {α β : Type} {g : α → Except PlotErr β} {a : α} {as : List α} {e : PlotErr}
    (h : g a = .error e) : (a :: as).mapM g = .error e := by
  rw [List.mapM_cons, h]
  rfl

lemma contains_of_mem {l : List String} {s : String} (h : s ∈ l) : l.contains s = true := by
  simpa using h

lemma contains_eq_false_of_not_mem {l : List String} {s : String} (h : s ∉ l) :
    l.contains s = false := by
  simpa using h

lemma get_cmap_found {name : String} (h : name ∈ knownCmaps) : get_cmap name = .ok name := by
  unfold get_cmap
  rw [if_pos (contains_of_mem h)]

lemma get_cmap_missing {name : String} (h : name ∉ knownCmaps) :
    get_cmap name = .error .unknownCmap := by
  unfold get_cmap
  have hc : knownCmaps.contains name = false := contains_eq_false_of_not_mem h
  rw [if_neg (by rw [hc]; exact Bool.false_ne_true)]

/-- Claim C1, as stated, is false for the resolver of streamlit_app.py:
on the 2x2 scenario A input the enriched output is the inner join of the
mapping and the value table, carrying only cells 0 and 1; mapping
records CC and DD, which have no value row, are dropped instead of being
retained with a null value, so the output does not have 4 rows. -/
theorem C1_counterexample :
    (streamlitResolve grid2 (some mappingA) userA).map (List.map SRow.proj) =
      .ok [(0, some "AA", some (.num 10)), (1, some "BB", some (.num 20))] ∧
    (streamlitResolve grid2 (some mappingA) userA).map List.length ≠ .ok 4 :=
  ⟨by decide, by decide⟩

/-- Claim C1, amended: in app.py the by-code match is anchored on the
full cell set (both merges are left joins), so scenario A yields exactly
4 rows, cells 0 and 1 with values 10 and 20, cells 2 and 3 with codes CC
and DD and a null value, and the legend range (10, 20).  In
streamlit_app.py the by-code match is an inner join of the mapping and
the value table, so the same input yields only the 2 matched rows, with
the same legend range. -/
theorem C1_theorem :
    (appResolve grid2 (some mappingA) valuesA).map (List.map AppRow.proj) =
      some [(0, some "AA", some (.num 10)), (1, some "BB", some (.num 20)),
            (2, some "CC", none), (3, some "DD", none)] ∧
    (plot_hex_dataframe ((appResolve grid2 (some mappingA) valuesA).getD []) true
        "viridis").map (fun f => f.colorbar) = .ok (some ⟨"viridis", some 10, some 20⟩) ∧
    (streamlitResolve grid2 (some mappingA) userA).map (List.map SRow.proj) =
      .ok [(0, some "AA", some (.num 10)), (1, some "BB", some (.num 20))] ∧
    (plot_matched_hexes (some ((streamlitResolve grid2 (some mappingA) userA).toOption.getD []))
        true "viridis").map (fun f => f.colorbar) = .ok (some ⟨"viridis", some 10, some 20⟩) :=
  ⟨by decide, by decide, by decide, by decide⟩

/-- Claim C2, as stated, is false for streamlit_app.py: when the upload
carries both a code column and a hex_id column and a mapping is
available, the hex_id column is not ignored; the duplicated column is
suffixed by the code merge and the subsequent merge on hex_id raises a
KeyError, instead of producing the by-code match. -/
theorem C2_counterexample :
    streamlitResolve grid2 (some mappingA) userBoth = .error .keyError ∧
    (streamlitResolve grid2 (some mappingA) userBoth).map (List.map SRow.proj) ≠
      .ok [(0, some "AA", some (.num 10))] :=
  ⟨by decide, by decide⟩

/-- Claim C2, amended: in app.py the by-code strategy is selected
whenever the value table has a code column, and the merge projects the
value table to its code and value columns first, so the output is
invariant under any hex_id column also present; the by-hex_id strategy
is only reached when no code column exists.  In streamlit_app.py the
by-code strategy is likewise selected first, but an upload carrying both
columns makes the merge chain raise a KeyError rather than ignore the
hex_id column. -/
theorem C2_theorem (m0 : List CellCode) (cs : List (Option String)) (vals : List CsvVal)
    (h1 h2 : Option (List CsvVal)) (grid : List Cell) (mp : List MappingRow)
    (hcol : List CsvVal) :
    appMergeValues m0 ⟨some cs, h1, vals⟩ = appMergeValues m0 ⟨some cs, h2, vals⟩ ∧
    streamlitResolve grid (some mp) ⟨some cs, some hcol, vals⟩ = .error .keyError :=
  ⟨rfl, rfl⟩

/-- Claim C3, as stated, is false for streamlit_app.py: the merge on
hex_id is an inner join of the grid with the upload, so scenario B
yields a single row for cell 0; cells 1 to 3 are absent from the result
instead of carrying a null value. -/
theorem C3_counterexample :
    (streamlitResolve grid2 none userB).map (List.map SRow.proj) =
      .ok [(0, none, some (.num 5))] ∧
    (streamlitResolve grid2 none userB).map List.length ≠ .ok 4 :=
  ⟨by decide, by decide⟩

/-- Claim C3, amended: in app.py the hex_id column of the value table is
joined unchanged (no integer coercion) with a left join anchored on the
cell set, so scenario B gives cell 0 the value 5 and cells 1 to 3 a null
value.  In streamlit_app.py the hex_id column is coerced to integer with
parse failures becoming null and excluded from matching, and the join is
an inner join, so scenario B yields only the row for cell 0, and an
unparseable id row is dropped without raising. -/
theorem C3_theorem :
    (appResolve grid2 none valuesB).map (List.map AppRow.proj) =
      some [(0, none, some (.num 5)), (1, none, none), (2, none, none), (3, none, none)] ∧
    (streamlitResolve grid2 none userB).map (List.map SRow.proj) =
      .ok [(0, none, some (.num 5))] ∧
    (streamlitResolve grid2 none ⟨none, some [.text "x", .num 0], [.num 7, .num 5]⟩).map
      (List.map SRow.proj) = .ok [(0, none, some (.num 5))] :=
  ⟨by decide, by decide, by decide⟩

/-- Claim C4, as stated, is false: value-table codes are not normalized
before being used as a join key.  With mapping cell 0 to AA and an
uploaded value row whose code differs only by case (aa, 10), the
resolver of app.py leaves cell 0 without a value instead of matching it. -/
theorem C4_counterexample :
    (appResolve grid2 (some [⟨0, "AA"⟩]) ⟨some [some "aa"], none, [.num 10]⟩).map
      (List.map AppRow.proj) =
      some [(0, some "AA", none), (1, none, none), (2, none, none), (3, none, none)] ∧
    (appResolve grid2 (some [⟨0, "AA"⟩]) ⟨some [some "aa"], none, [.num 10]⟩).map
      (List.map AppRow.proj) ≠
      some [(0, some "AA", some (.num 10)), (1, none, none), (2, none, none), (3, none, none)] :=
  ⟨by decide, by decide⟩

/-- Claim C4, amended: only mapping-table codes are normalized (strip
non-letters, uppercase, keep the last two characters); value-table codes
are joined raw in both variants.  A mapping code written k.a! matches an
uploaded value code KA, because the mapping side was cleaned to KA, but
uploading the very same spelling k.a! as a value code matches nothing. -/
theorem C4_theorem :
    (appResolve grid2 (some [⟨0, "k.a!"⟩]) ⟨some [some "KA"], none, [.num 10]⟩).map
      (List.map AppRow.proj) =
      some [(0, some "KA", some (.num 10)), (1, none, none), (2, none, none), (3, none, none)] ∧
    (appResolve grid2 (some [⟨0, "k.a!"⟩]) ⟨some [some "k.a!"], none, [.num 10]⟩).map
      (List.map AppRow.proj) =
      some [(0, some "KA", none), (1, none, none), (2, none, none), (3, none, none)] ∧
    (streamlitResolve grid2 (some [⟨0, "k.a!"⟩]) ⟨some [some "KA"], none, [.num 10]⟩).map
      (List.map SRow.proj) = .ok [(0, some "KA", some (.num 10))] ∧
    (streamlitResolve grid2 (some [⟨0, "k.a!"⟩]) ⟨some [some "k.a!"], none, [.num 10]⟩).map
      (List.map SRow.proj) = .ok [] :=
  ⟨by decide, by decide, by decide, by decide⟩

/-- Claim C5: code normalization is idempotent, and the spellings ka,
K.A! and xKA all normalize to the same key. -/
theorem C5_theorem :
    (∀ s : String, normalize_code (normalize_code s) = normalize_code s) ∧
    normalize_code "ka" = normalize_code "K.A!" ∧
    normalize_code "K.A!" = normalize_code "xKA" :=
  ⟨normalize_code_idem, by decide, by decide⟩

/-- Claim C6: for positive rows and cols the generator returns exactly
rows times cols cells, their hex_id values are exactly the integers of
the interval from 0 to rows times cols in row-major enumeration order
with no duplicates, and every cell satisfies hex_id equal to
row times cols plus col. -/
theorem C6_theorem (rows cols : Nat) (r : ℚ) (o : Orientation)
    (hr : 0 < rows) (hc : 0 < cols) :
    (make_hex_grid rows cols r o).length = rows * cols ∧
    (make_hex_grid rows cols r o).map Cell.hex_id = List.range (rows * cols) ∧
    ((make_hex_grid rows cols r o).map Cell.hex_id).Nodup ∧
    ∀ c ∈ make_hex_grid rows cols r o, c.hex_id = c.row * cols + c.col := by
  have key := make_hex_grid_ids rows cols r o
  refine ⟨?_, key, ?_, ?_⟩
  · have hlen := congrArg List.length key
    rwa [List.length_map, List.length_range] at hlen
  · rw [key]
    exact List.nodup_range _
  · intro c hcell
    simp only [make_hex_grid, List.mem_flatMap, List.mem_map] at hcell
    obtain ⟨row, _, col, _, hceq⟩ := hcell
    subst hceq
    rfl

/-- Witness for claim C6 at the concrete 2x2 flat grid of radius 1. -/
theorem C6_witness :
    (make_hex_grid 2 2 1 .flat).length = 2 * 2 ∧
    (make_hex_grid 2 2 1 .flat).map Cell.hex_id = List.range (2 * 2) ∧
    ((make_hex_grid 2 2 1 .flat).map Cell.hex_id).Nodup ∧
    ∀ c ∈ make_hex_grid 2 2 1 .flat, c.hex_id = c.row * 2 + c.col :=
  C6_theorem 2 2 1 .flat (by decide) (by decide)

/-- Claim C10: a missing or empty merged table makes plot_matched_hexes
return the placeholder figure carrying the text No matched hexes to
plot, without raising and with no patches, labels or colorbar. -/
theorem C10_theorem (useValue : Bool) (cmap_name : String) :
    plot_matched_hexes none useValue cmap_name = .ok placeholderFig ∧
    plot_matched_hexes (some []) useValue cmap_name = .ok placeholderFig ∧
    placeholderFig.placeholderText = some "No matched hexes to plot" ∧
    placeholderFig.patches = [] ∧
    placeholderFig.facecolors = [] ∧
    placeholderFig.labels = [] ∧
    placeholderFig.colorbar = none :=
  ⟨rfl, rfl, rfl, rfl, rfl, rfl, rfl⟩

lemma appRowColor_const (name : String) (c : ℚ) (v : Option ℚ) :
    appRowColor name c c v = if v.isSome then Color.cmapAt name 0 else Color.cmapBad name := by
  cases v with
  | none => rfl
  | some q => simp [appRowColor, normApply]

lemma sRowColor_const {name : String} {c : ℚ} {r : SRow}
    (h : r.value = some (CsvVal.num c) ∨ r.value = none ∨ r.value = some CsvVal.na) :
    sRowColor true true name c c r =
      .ok (if (r.value.bind toNumeric).isSome then Color.cmapAt name 0 else whiteFill) := by
  rcases h with h | h | h <;> simp [sRowColor, h, toNumeric, normApply]

lemma sRowColor_text {name : String} {v1 v2 : ℚ} {r : SRow} (h : isTextEntry r.value = true) :
    sRowColor true true name v1 v2 r = .error .valueError := by
  unfold isTextEntry at h
  rcases hv : r.value with _ | v
  · rw [hv] at h
    exact absurd h Bool.false_ne_true
  · cases v with
    | num q => rw [hv] at h; exact absurd h Bool.false_ne_true
    | na => rw [hv] at h; exact absurd h Bool.false_ne_true
    | text s => simp [sRowColor, hv]

/-- Claim C7: when every non-null value of the enriched set equals one
constant, so that the column minimum equals the maximum, neither color
encoder raises: in both variants the degenerate Normalize maps every
value to position 0, so every matched cell receives the same color,
while null cells keep the missing appearance. -/
theorem C7_theorem (rows : List AppRow) (srows : List SRow) (c : ℚ) (name : String)
    (hname : name ∈ knownCmaps)
    (happ : ∀ r ∈ rows, r.value = some (CsvVal.num c) ∨ r.value = none ∨ r.value = some CsvVal.na)
    (happx : ∃ r ∈ rows, r.value = some (CsvVal.num c))
    (hs : ∀ r ∈ srows, r.value = some (CsvVal.num c) ∨ r.value = none ∨ r.value = some CsvVal.na)
    (hsx : ∃ r ∈ srows, r.value = some (CsvVal.num c)) :
    (plot_hex_dataframe rows true name).map (fun f => f.facecolors) =
      .ok (rows.map (fun r =>
        if (r.value.bind toNumeric).isSome then Color.cmapAt name 0 else Color.cmapBad name)) ∧
    (plot_matched_hexes (some srows) true name).map (fun f => f.facecolors) =
      .ok (srows.map (fun r =>
        if (r.value.bind toNumeric).isSome then Color.cmapAt name 0 else whiteFill)) := by
  constructor
  · have hnotext : ∀ o ∈ rows.map (fun r => r.value), isTextEntry o = false := by
      intro o ho
      rw [List.mem_map] at ho
      obtain ⟨r, hr, rfl⟩ := ho
      rcases happ r hr with h | h | h <;> rw [h] <;> rfl
    have hast := astypeFloat_ok hnotext
    have hvals : (rows.map (fun r => r.value)).map (fun o => o.bind toNumeric) =
        rows.map (fun r => r.value.bind toNumeric) := by
      rw [List.map_map]
      rfl
    have hmemc : ∀ q ∈ (rows.map (fun r => r.value.bind toNumeric)).reduceOption, q = c := by
      intro q hq
      rw [List.reduceOption_mem_iff, List.mem_map] at hq
      obtain ⟨r, hr, hrq⟩ := hq
      rcases happ r hr with h | h | h <;> rw [h] at hrq <;> simp [toNumeric] at hrq
      exact hrq.symm
    have hnec : (rows.map (fun r => r.value.bind toNumeric)).reduceOption ≠ [] := by
      obtain ⟨r, hr, hv⟩ := happx
      apply List.ne_nil_of_mem (a := c)
      rw [List.reduceOption_mem_iff, List.mem_map]
      exact ⟨r, hr, by rw [hv]; rfl⟩
    have hminc := listMin_const _ hnec hmemc
    have hmaxc := listMax_const _ hnec hmemc
    simp only [plot_hex_dataframe, if_true, hast, get_cmap_found hname, hvals, hminc, hmaxc,
      Option.getD_some, Except.map, List.map_map]
    apply congrArg Except.ok
    apply List.map_congr_left
    intro r _
    exact appRowColor_const name c (r.value.bind toNumeric)
  · obtain ⟨r0, hr0, hv0⟩ := hsx
    cases srows with
    | nil => exact absurd hr0 (List.not_mem_nil r0)
    | cons a as =>
      have hmemc : ∀ q ∈ ((a :: as).map (fun r => r.value.bind toNumeric)).reduceOption, q = c := by
        intro q hq
        rw [List.reduceOption_mem_iff, List.mem_map] at hq
        obtain ⟨r, hr, hrq⟩ := hq
        rcases hs r hr with h | h | h <;> rw [h] at hrq <;> simp [toNumeric] at hrq
        exact hrq.symm
      have hnec : ((a :: as).map (fun r => r.value.bind toNumeric)).reduceOption ≠ [] := by
        apply List.ne_nil_of_mem (a := c)
        rw [List.reduceOption_mem_iff, List.mem_map]
        exact ⟨r0, hr0, by rw [hv0]; rfl⟩
      have hminc := listMin_const _ hnec hmemc
      have hmaxc := listMax_const _ hnec hmemc
      have hcolors := mapM_ok (sRowColor true true name c c)
        (fun r => if (r.value.bind toNumeric).isSome then Color.cmapAt name 0 else whiteFill)
        (a :: as) (fun x hx => sRowColor_const (hs x hx))
      simp only [plot_matched_hexes, List.isEmpty_cons, contains_of_mem hname, hminc, hmaxc,
        Option.getD_some, hcolors, Except.map, Bool.false_eq_true, if_false]

/-- Witness for claim C7: a two-row enriched set whose only non-null
value is 7 in both variants, rendered with viridis. -/
theorem C7_witness :
    (plot_hex_dataframe [⟨cellW, some "AA", some (.num 7)⟩, ⟨cellW, none, none⟩] true
        "viridis").map (fun f => f.facecolors) =
      .ok (([⟨cellW, some "AA", some (.num 7)⟩, ⟨cellW, none, none⟩] : List AppRow).map (fun r =>
        if (r.value.bind toNumeric).isSome then Color.cmapAt "viridis" 0
        else Color.cmapBad "viridis")) ∧
    (plot_matched_hexes (some [⟨0, some "AA", some (.num 7), none⟩, ⟨1, none, some .na, none⟩])
        true "viridis").map (fun f => f.facecolors) =
      .ok (([⟨0, some "AA", some (.num 7), none⟩, ⟨1, none, some .na, none⟩] : List SRow).map
        (fun r => if (r.value.bind toNumeric).isSome then Color.cmapAt "viridis" 0
          else whiteFill)) :=
  C7_theorem _ _ 7 "viridis" (by decide) (by decide) (by decide) (by decide) (by decide)

/-- Claim C8: when the value column exists but every entry is non-numeric
text, neither variant completes a render.  app.py raises the ValueError
of the Series float cast; streamlit_app.py raises the ValueError of the
bare float call in its color loop.  The failure the spec names
NoNumericValues is this ValueError; no typed error class exists in the
code. -/
theorem C8_theorem (rows : List AppRow) (srows : List SRow) (name : String)
    (hname : name ∈ knownCmaps)
    (hra : rows ≠ []) (hrs : srows ≠ [])
    (ha : ∀ r ∈ rows, isTextEntry r.value = true)
    (hsall : ∀ r ∈ srows, isTextEntry r.value = true) :
    plot_hex_dataframe rows true name = .error .valueError ∧
    plot_matched_hexes (some srows) true name = .error .valueError := by
  constructor
  · have htext : ∃ o ∈ rows.map (fun r => r.value), isTextEntry o = true := by
      cases rows with
      | nil => exact absurd rfl hra
      | cons a as =>
        exact ⟨a.value, List.mem_map_of_mem _ (List.mem_cons_self a as),
          ha a (List.mem_cons_self a as)⟩
    have hast := astypeFloat_error htext
    simp [plot_hex_dataframe, hast]
  · cases srows with
    | nil => exact absurd rfl hrs
    | cons a as =>
      have hcol : ∀ v1 v2 : ℚ, sRowColor true true name v1 v2 a = .error .valueError :=
        fun _ _ => sRowColor_text (hsall a (List.mem_cons_self a as))
      have hm : ∀ v1 v2 : ℚ,
          (a :: as).mapM (sRowColor true true name v1 v2) = .error .valueError :=
        fun v1 v2 => mapM_error_head (hcol v1 v2)
      simp only [plot_matched_hexes, List.isEmpty_cons, contains_of_mem hname, hm,
        Bool.false_eq_true, if_false]

/-- Witness for claim C8: singleton enriched sets whose only value is the
text abc, rendered with viridis. -/
theorem C8_witness :
    plot_hex_dataframe [⟨cellW, some "AA", some (.text "abc")⟩] true "viridis" =
      .error .valueError ∧
    plot_matched_hexes (some [⟨0, some "AA", some (.text "abc"), none⟩]) true "viridis" =
      .error .valueError :=
  C8_theorem _ _ "viridis" (by decide) (by decide) (by decide) (by decide) (by decide)

/-- Claim C9, as stated, is false for streamlit_app.py: with the unknown
palette name not_a_real_scale and two numeric values, plot_matched_hexes
does not raise; matplotlib.colormaps.get returns None, every cell is
painted the neutral grey, and the colorbar falls back to the default
viridis colormap. -/
theorem C9_counterexample :
    (plot_matched_hexes (some srowsD) true "not_a_real_scale").map
      (fun f => (f.placeholderText, f.facecolors, f.colorbar)) =
      .ok (none, [greyFill92, greyFill92], some ⟨"viridis", some 1, some 2⟩) ∧
    plot_matched_hexes (some srowsD) true "not_a_real_scale" ≠ .error .unknownCmap := by
  refine ⟨rfl, fun h => ?_⟩
  have hok : (plot_matched_hexes (some srowsD) true "not_a_real_scale").map
      (fun _ => (0 : Nat)) = .ok 0 := rfl
  rw [h] at hok
  simp [Except.map] at hok

/-- Claim C9, amended: app.py raises for a palette name outside the
colormap registry (the lookup error of cm.get_cmap), but
streamlit_app.py silently falls back: the registry lookup returns None
and every cell receives the neutral grey fill instead of an error. -/
theorem C9_theorem (name : String) (rows : List AppRow) (srows : List SRow)
    (hname : name ∉ knownCmaps)
    (hnum : ∀ r ∈ rows, isTextEntry r.value = false) :
    plot_hex_dataframe rows true name = .error .unknownCmap ∧
    (plot_matched_hexes (some srows) true name).map (fun f => f.facecolors) =
      .ok (srows.map (fun _ => greyFill92)) := by
  constructor
  · have hnotext : ∀ o ∈ rows.map (fun r => r.value), isTextEntry o = false := by
      intro o ho
      rw [List.mem_map] at ho
      obtain ⟨r, hr, rfl⟩ := ho
      exact hnum r hr
    have hast := astypeFloat_ok hnotext
    have hcm := get_cmap_missing hname
    simp [plot_hex_dataframe, hast, hcm]
  · cases srows with
    | nil => simp only [plot_matched_hexes, List.isEmpty_nil, if_true, Except.map, placeholderFig,
        List.map_nil]
    | cons a as =>
      have hcf : knownCmaps.contains name = false := contains_eq_false_of_not_mem hname
      have hcol : ∀ v1 v2 : ℚ, ∀ r : SRow, sRowColor true false name v1 v2 r = .ok greyFill92 := by
        intro v1 v2 r
        simp [sRowColor]
      have hm : ∀ v1 v2 : ℚ, (a :: as).mapM (sRowColor true false name v1 v2) =
          .ok ((a :: as).map (fun _ => greyFill92)) :=
        fun v1 v2 => mapM_ok (sRowColor true false name v1 v2) (fun _ => greyFill92)
          (a :: as) (fun x _ => hcol v1 v2 x)
      simp only [plot_matched_hexes, List.isEmpty_cons, hcf, hm, Bool.false_eq_true, if_false,
        Except.map]

/-- Witness for claim C9: a one-row enriched set with a numeric value in
app.py and the two-value streamlit set, with the contrived palette
name. -/
theorem C9_witness :
    plot_hex_dataframe [⟨cellW, none, some (.num 1)⟩] true "not_a_real_scale" =
      .error .unknownCmap ∧
    (plot_matched_hexes (some srowsD) true "not_a_real_scale").map (fun f => f.facecolors) =
      .ok (srowsD.map (fun _ => greyFill92)) :=
  C9_theorem "not_a_real_scale" _ _ (by decide) (by decide)

end HexMapIndia
